import Mathlib

/-! Formal model of ozwCurses.py (py-openzwave, class ZWaveCommander), a
curses terminal UI.  Each definition below is a shallow embedding of the
Python function or state named in its comment.  Python ints are modelled
as Int (they are unbounded) or Nat where the value is provably
non-negative; Python lists as List; Python float arithmetic, where it
occurs, is exact on the inputs considered and is modelled with Rat.  The
curses screen itself is not modelled; only the state the program keeps
about it, plus ghost trace fields where display order is the property of
interest. -/

-- ### Alert subsystem: _alert (lines 86-96) and _delayloop (lines 65-74)

/-- State of the alert banner subsystem: the _curAlert flag and the
_alertStack list from ZWaveCommander.__init__ (lines 17-18), plus a
ghost trace field recording, in order, every message that has been
written to the banner (line 91 writes the message to the screen; the
trace makes that write observable). -/
structure AlertState where
  curAlert : Bool
  alertStack : List String
  displayed : List String
deriving DecidableEq

/-- _alert(text) (lines 86-96): if no alert is currently showing, show
this one immediately (and arm the 1-second expiry timer, line 94);
otherwise self._alertStack.append(text) pushes the text on the END of
the list. -/
def alertRaise (s : AlertState) (text : String) : AlertState :=
  if !s.curAlert then
    { s with curAlert := true, displayed := s.displayed ++ [text] }
  else
    { s with alertStack := s.alertStack ++ [text] }

/-- _delayloop for context "alert" (lines 69-72): when the expiry timer
fires, _curAlert is cleared; if _alertStack is non-empty,
self._alertStack.pop() removes and returns the LAST element of the
list, which is then re-raised via _alert. -/
def alertExpire (s : AlertState) : AlertState :=
  match s.alertStack.getLast? with
  | none => { s with curAlert := false }
  | some text =>
      alertRaise { s with curAlert := false, alertStack := s.alertStack.dropLast } text

/-- Initial alert state (__init__, lines 17-18). -/
def alertInit : AlertState := { curAlert := false, alertStack := [], displayed := [] }

-- ### Dialog progress bar: _addDialogProgress (lines 280-295)

/-- _addDialogProgress(row, current, total, showPercent, width)
(lines 280-295).  dcSpan is dc.smaxcol - dc.smincol of the active
dialog.  When width is None the bar width defaults to
dcSpan * 2 / 3 (Python 2 integer floor division).  The body computes
pct = float(current) / float(total) and
filled = int(pct * float(width)).  The float arithmetic is modelled
exactly with Rat (int() truncates toward zero, which for the
non-negative values here is the floor); Python raises
ZeroDivisionError when total == 0, modelled as none.  The returned
pair is (pct, filled). -/
def addDialogProgress (dcSpan _row current total : Nat) (width : Option Nat) :
    Option (Rat × Int) :=
  let w := width.getD (dcSpan * 2 / 3)
  if total = 0 then none
  else
    let pct : Rat := (current : Rat) / (total : Rat)
    some (pct, ⌊pct * (w : Rat)⌋)

-- ### Layout engine: _layoutScreen (lines 98-158)

/-- The flexible-size distribution performed twice by _layoutScreen
(columns, lines 133-143; rows, lines 145-155).  In Python:
flexwidth = width - cwid; if flexwidth > 0 then
adder = divmod(flexwidth, len(flexcols)); each flexible index gains
adder[0] and the last flexible index additionally gains adder[1]. -/
def adjustFlex (widths : List Nat) (flex : List Nat) (target : Nat) : List Nat :=
  let cwid := widths.sum
  if cwid < target then
    let q := (target - cwid) / flex.length
    let r := (target - cwid) % flex.length
    let ws := flex.foldl (fun ws i => ws.set i (ws.getD i 0 + q)) widths
    match flex.getLast? with
    | some j => ws.set j (ws.getD j 0 + r)
    | none => ws
  else widths

/-- self._colwidths (line 118). -/
def initColWidths : List Nat := [1, 4, 10, 10, 20, 9, 7, 7]

/-- self._flexcols (line 121). -/
def flexCols : List Nat := [2, 3, 4]

/-- self._rowheights (line 122). -/
def initRowHeights : List Nat := [5, 5, 10, 1]

/-- self._flexrows (line 123). -/
def flexRows : List Nat := [1, 2]

/-- Column widths after _layoutScreen for a terminal of the given
width (lines 133-143). -/
def layoutColWidths (width : Nat) : List Nat := adjustFlex initColWidths flexCols width

/-- Row heights after _layoutScreen for a terminal of the given height
(lines 145-155). -/
def layoutRowHeights (height : Nat) : List Nat := adjustFlex initRowHeights flexRows height

-- ### Navigation state machine: _switchItem, _switchTab, _nextMode

/-- self._colheaders (line 119); index 0 is the one-character selection
indicator column with the empty header. -/
def colheaders : List String := ["", "ID", "Name", "Location", "Type", "State", "Batt", "Signal"]

/-- self._detailheaders (line 120). -/
def detailheaders : List String := ["Info", "Config", "Values", "Classes", "Groups"]

/-- The navigation state of ZWaveCommander: _listMode, _listtop and
_listindex from __init__ (lines 21, 24-25), _sortcolumn and
_detailview from _layoutScreen (lines 125-126). -/
structure EngineState where
  listMode : Bool
  listtop : Int
  listindex : Int
  sortcolumn : String
  detailview : String
deriving DecidableEq

/-- Initial navigation state: __init__ sets _listMode = True,
_listtop = 0, _listindex = 0; _layoutScreen sets
_sortcolumn = _colheaders[1] and _detailview = _detailheaders[0]. -/
def initEngineState : EngineState :=
  { listMode := true, listtop := 0, listindex := 0,
    sortcolumn := colheaders.getD 1 "", detailview := detailheaders.getD 0 "" }

/-- The scroll recompute at the end of _updateDeviceList
(lines 419-424): listheight is self._rowheights[1]; if
_listindex - _listtop > listheight then _listtop is set to
_listindex - listheight, else if _listindex < _listtop then _listtop
is set to _listindex. -/
def updateDeviceListScroll (listheight : Int) (s : EngineState) : EngineState :=
  if s.listindex - s.listtop > listheight then { s with listtop := s.listindex - listheight }
  else if s.listindex < s.listtop then { s with listtop := s.listindex }
  else s

/-- _switchItem(delta) (lines 336-342): only in list mode; n =
_listindex + delta; if n in range(0, _listcount) then _listindex = n
and _updateDeviceList runs (whose only state effect is the scroll
recompute above).  listcount is self._listcount (the node count of the
wrapper) and listheight is self._rowheights[1], both passed in as the
environment. -/
def switchItem (listcount listheight delta : Int) (s : EngineState) : EngineState :=
  if s.listMode then
    let n := s.listindex + delta
    if 0 ≤ n ∧ n < listcount then
      updateDeviceListScroll listheight { s with listindex := n }
    else s
  else s

/-- _switchTab(delta) (lines 344-359): in list mode, i =
_colheaders.index(_sortcolumn) + delta; if i > len - 1 then i = 1,
elif i < 1 then i = len - 1; _sortcolumn = _colheaders[i].  In detail
mode the same with _detailheaders, wrapping to 0 and len - 1.  The
remaining calls in the body only redraw. -/
def switchTab (delta : Int) (s : EngineState) : EngineState :=
  if s.listMode then
    let i : Int := ((colheaders.indexOf s.sortcolumn : Nat) : Int) + delta
    let i := if i > (colheaders.length : Int) - 1 then 1
             else if i < 1 then (colheaders.length : Int) - 1
             else i
    { s with sortcolumn := colheaders.getD i.toNat "" }
  else
    let i : Int := ((detailheaders.indexOf s.detailview : Nat) : Int) + delta
    let i := if i > (detailheaders.length : Int) - 1 then 0
             else if i < 0 then (detailheaders.length : Int) - 1
             else i
    { s with detailview := detailheaders.getD i.toNat "" }

/-- _nextMode (lines 361-363): _listMode = not _listMode; the following
_updateColumnHeaders call only redraws. -/
def nextMode (s : EngineState) : EngineState :=
  { s with listMode := !s.listMode }

/-- The viewport invariant of the spec for the list pane:
topOffset ≤ selectedIndex ≤ topOffset + visibleHeight. -/
def scrollInvariant (listheight : Int) (s : EngineState) : Prop :=
  s.listtop ≤ s.listindex ∧ s.listindex ≤ s.listtop + listheight

-- ### Mnemonic dispatch: _handleMnemonic (lines 323-334)

/-- self._keys (lines 28-39), in source order.  Python 2 dict iteration
order is unspecified, but the lower/upper-case forms of the ten
mnemonic characters are pairwise distinct, so at most one entry can
match a given key and the iteration order cannot affect the result. -/
def keysTable : List (Char × String) :=
  [('A', "Add"), ('B', "About"), ('D', "Delete"), ('R', "Refresh"), ('S', "Setup"),
   ('+', "Increase"), ('-', "Decrease"), ('1', "On"), ('0', "Off"), ('Q', "Quit")]

/-- Whether the class defines a method named _handle<func> for a
command name from the table: the source defines _handleQuit (line 76)
and _handleSetup (line 187) and no other _handle<Command> method, so
getattr succeeds exactly for Quit and Setup. -/
def hasHandler (func : String) : Bool :=
  func == "Quit" || func == "Setup"

/-- Outcome of _handleMnemonic: the matched handler method was invoked;
or the command had no handler and _alert was raised with the given
message (lines 330-333); or no table entry matched the key and the
loop fell through without touching any state. -/
inductive MnemonicResult where
  | invoked (funcname : String)
  | alerted (msg : String)
  | ignored
deriving DecidableEq

/-- The loop body of _handleMnemonic (lines 323-334): for each
(mnemonic, func) pair, if key == ord(mnemonic.lower()) or
key == ord(mnemonic.upper()), then funcname = "_handle" + func is
looked up with getattr; on AttributeError the alert message
"No method named <funcname> defined!" is raised; then break. -/
def dispatchMnemonic : List (Char × String) → Nat → MnemonicResult
  | [], _ => .ignored
  | (m, func) :: rest, key =>
      if key = m.toLower.toNat ∨ key = m.toUpper.toNat then
        if hasHandler func then .invoked ("_handle" ++ func)
        else .alerted ("No method named _handle" ++ func ++ " defined!")
      else dispatchMnemonic rest key

/-- _handleMnemonic(key) over the full command table. -/
def handleMnemonic (key : Nat) : MnemonicResult :=
  dispatchMnemonic keysTable key

-- ### Driver notification delivery: _checkInterface (lines 297-307)
-- and the _notify* handlers (lines 199-231)

/-- The calls a notification handler makes, classified by what they
touch.  enqueueToChannel stands for a handoff of the event to a
thread-safe channel drained by the render loop; no such call exists
anywhere in the source, the constructor exists so its absence can be
stated. -/
inductive UICall where
  | logWrite
  | markDriverReady
  | resetReadyCount
  | incReadyCount
  | addDialogTextCall
  | addDialogProgressCall
  | raiseAlertCall
  | clearDialogCall
  | updateSystemInfoCall
  | updateDeviceListCall
  | updateColumnHeadersCall
  | updateDeviceDetailCall
  | enqueueToChannel
deriving DecidableEq

/-- Whether a call mutates curses screen state (the stdscr window, the
list pad or the dialog pad) directly.  _updateDeviceDetail is a bare
pass (lines 429-430) and mutates nothing; the counters and the log are
not screen state. -/
def mutatesScreen : UICall → Bool
  | .addDialogTextCall => true
  | .addDialogProgressCall => true
  | .raiseAlertCall => true
  | .clearDialogCall => true
  | .updateSystemInfoCall => true
  | .updateDeviceListCall => true
  | .updateColumnHeadersCall => true
  | _ => false

/-- Body of _notifyDriverReady (lines 199-204), in order. -/
def notifyDriverReadyCalls : List UICall :=
  [.logWrite, .markDriverReady, .addDialogTextCall, .addDialogTextCall, .resetReadyCount]

/-- Body of _notifyNodeAdded (lines 206-208), in order. -/
def notifyNodeAddedCalls : List UICall :=
  [.addDialogTextCall, .updateSystemInfoCall]

/-- Body of _notifySystemReady (lines 217-220), in order, with
_redrawAll (lines 210-215) inlined. -/
def notifySystemReadyCalls : List UICall :=
  [.logWrite, .raiseAlertCall, .clearDialogCall, .updateSystemInfoCall,
   .updateDeviceListCall, .updateColumnHeadersCall, .updateDeviceDetailCall]

/-- Body of _notifyNodeReady (lines 222-227), in order. -/
def notifyNodeReadyCalls : List UICall :=
  [.incReadyCount, .addDialogTextCall, .addDialogTextCall, .addDialogProgressCall,
   .updateDeviceListCall]

/-- Body of _notifyValueChanged (lines 229-231): a bare pass. -/
def notifyValueChangedCalls : List UICall := []

/-- The dispatcher.connect registrations made by _checkInterface
(lines 298-302), in source order.  louie dispatcher.connect invokes
the connected handler synchronously on whatever thread sends the
signal, so each handler body runs in the notifying execution
context. -/
def driverSignalHandlers : List (String × List UICall) :=
  [("SIGNAL_DRIVER_READY", notifyDriverReadyCalls),
   ("SIGNAL_SYSTEM_READY", notifySystemReadyCalls),
   ("SIGNAL_NODE_READY", notifyNodeReadyCalls),
   ("SIGNAL_VALUE_CHANGED", notifyValueChangedCalls),
   ("SIGNAL_NODE_ADDED", notifyNodeAddedCalls)]

-- ──────────────────────────────────────────────────────────────────────
-- Theorems
-- ──────────────────────────────────────────────────────────────────────

-- ### C1: alert backlog order

/-- Claim C1, counterexample: the backlog is not FIFO.  With alert "A"
displayed and "B" then "C" raised before "A" expires, the two expiries
promote list.pop() — the LAST queued element — so the display order is
A, C, B, not the claimed A, B, C. -/
theorem alert_backlog_not_fifo :
    (alertExpire (alertExpire (alertRaise (alertRaise (alertRaise alertInit "A") "B") "C"))).displayed
      = ["A", "C", "B"] ∧
    (alertExpire (alertExpire (alertRaise (alertRaise (alertRaise alertInit "A") "B") "C"))).displayed
      ≠ ["A", "B", "C"] := by
  decide

/-- Claim C1, amended: the alert backlog is LIFO.  Every raise while an
alert is displayed appends the new message to the backlog without
dropping the displayed one or altering what has been shown; on each
expiry the BACK (most recently queued) message is removed from the
backlog and promoted to the banner; hence raising B then C while A is
displayed yields display order A, C, B. -/
theorem alert_backlog_lifo :
    (∀ (s : AlertState) (t : String), s.curAlert = true →
      (alertRaise s t).curAlert = true ∧
      (alertRaise s t).displayed = s.displayed ∧
      (alertRaise s t).alertStack = s.alertStack ++ [t]) ∧
    (∀ (s : AlertState) (l : List String) (t : String), s.alertStack = l ++ [t] →
      (alertExpire s).displayed = s.displayed ++ [t] ∧
      (alertExpire s).alertStack = l ∧
      (alertExpire s).curAlert = true) ∧
    (alertExpire (alertExpire (alertRaise (alertRaise (alertRaise alertInit "A") "B") "C"))).displayed
      = ["A", "C", "B"] := by
  refine ⟨?_, ?_, by decide⟩
  · intro s t h
    simp [alertRaise, h]
  · intro s l t hs
    have h1 : s.alertStack.getLast? = some t := by rw [hs]; simp
    have h2 : s.alertStack.dropLast = l := by rw [hs]; simp
    simp [alertExpire, h1, alertRaise, h2]

/-- Concrete instance of the amended C1 statement. -/
theorem alert_backlog_lifo_witness :
    (alertRaise { curAlert := true, alertStack := [], displayed := ["A"] } "B").curAlert = true ∧
    (alertRaise { curAlert := true, alertStack := [], displayed := ["A"] } "B").displayed = ["A"] ∧
    (alertRaise { curAlert := true, alertStack := [], displayed := ["A"] } "B").alertStack = [] ++ ["B"] :=
  alert_backlog_lifo.1 { curAlert := true, alertStack := [], displayed := ["A"] } "B" rfl

-- ### C2: progress bar with total == 0

/-- Claim C2 (code bug in the source): _addDialogProgress has no
total == 0 guard — it computes float(current)/float(total)
unconditionally, which raises ZeroDivisionError when total = 0
(modelled as none), for any row and any width; the spec requires a
0 percent bar without error there.  The non-zero totals behave as
specified: current 0 of 10 gives 0 percent with 0 filled cells, and
current 10 of 10 gives 100 percent with the full default width
59 * 2 / 3 = 39 filled. -/
theorem addDialogProgress_div_by_zero :
    addDialogProgress 59 5 0 0 none = none ∧
    addDialogProgress 59 5 1 0 (some 20) = none ∧
    addDialogProgress 59 5 0 10 none = some (0, 0) ∧
    addDialogProgress 59 5 10 10 none = some (1, 39) := by
  refine ⟨rfl, rfl, ?_, ?_⟩ <;> norm_num [addDialogProgress]

-- ### C3: flexible layout distribution

/-- Claim C3: for any terminal width at least 68 (the sum of the
declared fixed and minimum column widths) the three flexible columns
(indices 2, 3, 4) each gain the quotient of the spare width by 3, the
last flexible column additionally absorbs the remainder, and the
widths sum exactly to the terminal width; likewise for heights at
least 21 with flexible rows 1 and 2. -/
theorem layout_flex_distribution (w h : Nat) (hw : 68 ≤ w) (hh : 21 ≤ h) :
    layoutColWidths w
      = [1, 4, 10 + (w - 68) / 3, 10 + (w - 68) / 3,
         20 + (w - 68) / 3 + (w - 68) % 3, 9, 7, 7] ∧
    (layoutColWidths w).sum = w ∧
    layoutRowHeights h
      = [5, 5 + (h - 21) / 2, 10 + (h - 21) / 2 + (h - 21) % 2, 1] ∧
    (layoutRowHeights h).sum = h := by
  have hsw : List.sum [1, 4, 10, 10, 20, 9, 7, 7] = 68 := by decide
  have hsh : List.sum [5, 5, 10, 1] = 21 := by decide
  have hcol : layoutColWidths w
      = [1, 4, 10 + (w - 68) / 3, 10 + (w - 68) / 3,
         20 + (w - 68) / 3 + (w - 68) % 3, 9, 7, 7] := by
    rcases hw.eq_or_lt with heq | hlt
    · subst heq; decide
    · simp only [layoutColWidths, adjustFlex, initColWidths, flexCols]
      split
      · rfl
      · omega
  have hrow : layoutRowHeights h
      = [5, 5 + (h - 21) / 2, 10 + (h - 21) / 2 + (h - 21) % 2, 1] := by
    rcases hh.eq_or_lt with heq | hlt
    · subst heq; decide
    · simp only [layoutRowHeights, adjustFlex, initRowHeights, flexRows]
      split
      · rfl
      · omega
  refine ⟨hcol, ?_, hrow, ?_⟩
  · rw [hcol]
    simp only [List.sum_cons, List.sum_nil]
    omega
  · rw [hrow]
    simp only [List.sum_cons, List.sum_nil]
    omega

/-- Concrete instance of C3 at width 75 and height 28: the spare width
7 over 3 flexible columns distributes as +2, +2, +3. -/
theorem layout_flex_distribution_witness :
    layoutColWidths 75 = [1, 4, 12, 12, 23, 9, 7, 7] ∧
    (layoutColWidths 75).sum = 75 ∧
    layoutRowHeights 28 = [5, 8, 14, 1] ∧
    (layoutRowHeights 28).sum = 28 :=
  layout_flex_distribution 75 28 (by decide) (by decide)

-- ### C4: viewport scroll invariant

/-- The scroll recompute never changes the selected index. -/
theorem updateDeviceListScroll_listindex (h : Int) (s : EngineState) :
    (updateDeviceListScroll h s).listindex = s.listindex := by
  simp only [updateDeviceListScroll]
  split_ifs <;> rfl

/-- One _switchItem step preserves the viewport invariant, for any
delta. -/
theorem switchItem_scrollInvariant (count h d : Int) (s : EngineState)
    (hh : 0 ≤ h) (hs : scrollInvariant h s) :
    scrollInvariant h (switchItem count h d s) := by
  simp only [scrollInvariant, switchItem, updateDeviceListScroll] at *
  split_ifs <;> simp_all <;> omega

/-- A foldl of _switchItem steps from any state satisfying the
viewport invariant stays inside it. -/
theorem switchItem_foldl_scrollInvariant (count h : Int) (hh : 0 ≤ h) :
    ∀ (ds : List Int) (s : EngineState), scrollInvariant h s →
      scrollInvariant h (ds.foldl (fun s d => switchItem count h d s) s) := by
  intro ds
  induction ds with
  | nil => intro s hs; exact hs
  | cons d ds ih =>
      intro s hs
      exact ih _ (switchItem_scrollInvariant count h d s hh hs)

/-- Claim C4: starting from topOffset = 0 and selectedIndex = 0, after
any sequence of MoveSelection(plus or minus 1) commands, each followed
by the scroll recompute of _updateDeviceList, the relation
topOffset ≤ selectedIndex ≤ topOffset + visibleHeight holds, for any
item count and any non-negative visible height. -/
theorem viewport_scroll_invariant_holds (count h : Int) (ds : List Int)
    (hh : 0 ≤ h) (hd : ∀ d ∈ ds, d = 1 ∨ d = -1) :
    scrollInvariant h (ds.foldl (fun s d => switchItem count h d s) initEngineState) :=
  switchItem_foldl_scrollInvariant count h hh ds initEngineState
    (by constructor <;> simp [initEngineState] <;> omega)

/-- Concrete instance of C4: seven down presses with 7 items and
visible height 5. -/
theorem viewport_scroll_invariant_witness :
    scrollInvariant 5
      ([1, 1, 1, 1, 1, 1, 1].foldl (fun s d => switchItem 7 5 d s) initEngineState) :=
  viewport_scroll_invariant_holds 7 5 [1, 1, 1, 1, 1, 1, 1] (by decide) (by decide)

-- ### C5: MoveSelection clamps to the item range

/-- Claim C5: _switchItem keeps the selected index inside
[0, itemCount - 1] whenever it starts there, an attempted move whose
target falls outside the range leaves the state unchanged, and
concretely: with 7 items, visible height 5 and initial selection 0,
six down presses reach selectedIndex 6 with topOffset 1, and a seventh
down press is a no-op. -/
theorem moveSelection_clamps :
    (∀ (count h d : Int) (s : EngineState), 0 ≤ s.listindex → s.listindex < count →
      0 ≤ (switchItem count h d s).listindex ∧ (switchItem count h d s).listindex < count) ∧
    (∀ (count h d : Int) (s : EngineState),
      ¬(0 ≤ s.listindex + d ∧ s.listindex + d < count) → switchItem count h d s = s) ∧
    ((switchItem 7 5 1)^[6] initEngineState).listindex = 6 ∧
    ((switchItem 7 5 1)^[6] initEngineState).listtop = 1 ∧
    switchItem 7 5 1 ((switchItem 7 5 1)^[6] initEngineState)
      = (switchItem 7 5 1)^[6] initEngineState := by
  refine ⟨?_, ?_, by decide, by decide, by decide⟩
  · intro count h d s h0 hc
    simp only [switchItem]
    split_ifs with h1 h2
    · rw [updateDeviceListScroll_listindex]
      exact h2
    · exact ⟨h0, hc⟩
    · exact ⟨h0, hc⟩
  · intro count h d s hout
    simp only [switchItem]
    split_ifs <;> rfl

/-- Concrete instance of the universally quantified parts of C5. -/
theorem moveSelection_clamps_witness :
    (0 ≤ (switchItem 7 5 1 initEngineState).listindex ∧
      (switchItem 7 5 1 initEngineState).listindex < 7) ∧
    switchItem 7 5 (-1) initEngineState = initEngineState :=
  ⟨moveSelection_clamps.1 7 5 1 initEngineState (by decide) (by decide),
   moveSelection_clamps.2.1 7 5 (-1) initEngineState (by decide)⟩

-- ### C6: sort-column cycling round trip

/-- Claim C6: from any of the 7 sortable columns (every declared column
except the indicator column at index 0, whose header is the empty
string), applying _switchTab(1) in list mode exactly 7 times returns
the sort column to its starting value, and at no point along the way
does the sort column become the indicator column. -/
theorem sort_cycle_roundtrip :
    ∀ c ∈ colheaders.tail,
      ((switchTab 1)^[7] { initEngineState with sortcolumn := c }).sortcolumn = c ∧
      ∀ k, k ≤ 7 → ((switchTab 1)^[k] { initEngineState with sortcolumn := c }).sortcolumn ≠ "" := by
  intro c hc
  simp only [colheaders, List.tail_cons] at hc
  fin_cases hc <;> exact ⟨by decide, by decide⟩

/-- Concrete instance of C6 starting from the default sort column. -/
theorem sort_cycle_roundtrip_witness :
    ((switchTab 1)^[7] { initEngineState with sortcolumn := "ID" }).sortcolumn = "ID" ∧
    ∀ k, k ≤ 7 → ((switchTab 1)^[k] { initEngineState with sortcolumn := "ID" }).sortcolumn ≠ "" :=
  sort_cycle_roundtrip "ID" (by decide)

-- ### C7: unimplemented commands raise an alert

/-- Claim C7: for every entry of the command table whose resolved
command name has no _handle method, a key press matching either case
of the mnemonic makes _handleMnemonic raise the alert naming the
missing handler. -/
theorem missing_handler_alerts :
    ∀ p ∈ keysTable, hasHandler p.2 = false →
      ∀ key : Nat, key = p.1.toLower.toNat ∨ key = p.1.toUpper.toNat →
        handleMnemonic key
          = MnemonicResult.alerted ("No method named _handle" ++ p.2 ++ " defined!") := by
  intro p hp
  fin_cases hp <;>
    (intro hf key hk
     first
       | exact absurd hf (by decide)
       | (cases hk with
          | inl hl => rw [hl]; decide
          | inr hr => rw [hr]; decide))

/-- Concrete instance of C7: lower-case a resolves to Add, which has no
handler, and alerts. -/
theorem missing_handler_alerts_witness :
    handleMnemonic 97 = MnemonicResult.alerted ("No method named _handle" ++ "Add" ++ " defined!") :=
  missing_handler_alerts ('A', "Add") (by decide) (by decide) 97 (Or.inl (by decide))

-- ### C8: ToggleMode frame condition

/-- Claim C8: _nextMode flips the mode flag, is an involution, and
leaves the selected index, the top offset, the sort column and the
detail tab unchanged. -/
theorem toggleMode_frame (s : EngineState) :
    (nextMode s).listMode = !s.listMode ∧
    nextMode (nextMode s) = s ∧
    (nextMode s).listindex = s.listindex ∧
    (nextMode s).listtop = s.listtop ∧
    (nextMode s).sortcolumn = s.sortcolumn ∧
    (nextMode s).detailview = s.detailview := by
  refine ⟨rfl, ?_, rfl, rfl, rfl, rfl⟩
  cases s
  simp [nextMode]

-- ### C9: cross-thread delivery

/-- Claim C9, counterexample: delivery is not marshaled.  The
system-ready handler is registered with the dispatcher, runs in the
notifying execution context, contains a direct screen mutation, and
performs no handoff to any cross-thread channel — no such channel
exists in the program. -/
theorem dispatcher_direct_mutation_cex :
    ("SIGNAL_SYSTEM_READY", notifySystemReadyCalls) ∈ driverSignalHandlers ∧
    (∃ c ∈ notifySystemReadyCalls, mutatesScreen c = true) ∧
    UICall.enqueueToChannel ∉ notifySystemReadyCalls := by
  decide

/-- Claim C9, amended: driver notifications are delivered by direct
synchronous callback in the notifying execution context; no registered
handler hands its event off through a thread-safe channel, and every
handler with a non-empty body mutates screen state directly from that
context. -/
theorem dispatcher_no_marshaling :
    ∀ p ∈ driverSignalHandlers,
      UICall.enqueueToChannel ∉ p.2 ∧
      (p.2 ≠ [] → ∃ c ∈ p.2, mutatesScreen c = true) := by
  decide

/-- Concrete instance of the amended C9 statement for the driver-ready
handler. -/
theorem dispatcher_no_marshaling_witness :
    UICall.enqueueToChannel ∉ notifyDriverReadyCalls ∧
    (notifyDriverReadyCalls ≠ [] → ∃ c ∈ notifyDriverReadyCalls, mutatesScreen c = true) :=
  dispatcher_no_marshaling ("SIGNAL_DRIVER_READY", notifyDriverReadyCalls) (by decide)

-- ### C10: unknown keys fall through silently

/-- A key matching no entry of a table falls through the dispatch loop
untouched. -/
theorem dispatchMnemonic_no_match :
    ∀ (l : List (Char × String)) (key : Nat),
      (∀ p ∈ l, key ≠ p.1.toLower.toNat ∧ key ≠ p.1.toUpper.toNat) →
      dispatchMnemonic l key = MnemonicResult.ignored := by
  intro l
  induction l with
  | nil => intro key _; rfl
  | cons p rest ih =>
      intro key hkey
      obtain ⟨m, func⟩ := p
      obtain ⟨h1, h2⟩ := hkey (m, func) (List.mem_cons_self _ _)
      simp only [dispatchMnemonic]
      rw [if_neg (by push_neg; exact ⟨h1, h2⟩)]
      exact ih key (fun q hq => hkey q (List.mem_cons_of_mem _ hq))

/-- Claim C10: for every key code matching no mnemonic of the command
table under either letter case, _handleMnemonic falls through its loop
without invoking anything and without raising an alert, leaving all
engine state untouched. -/
theorem unknown_key_ignored (key : Nat)
    (h : ∀ p ∈ keysTable, key ≠ p.1.toLower.toNat ∧ key ≠ p.1.toUpper.toNat) :
    handleMnemonic key = MnemonicResult.ignored :=
  dispatchMnemonic_no_match keysTable key h

/-- Concrete instance of C10: the key code of z matches no mnemonic and
is ignored. -/
theorem unknown_key_ignored_witness :
    handleMnemonic 122 = MnemonicResult.ignored :=
  unknown_key_ignored 122 (by decide)
